import Mathlib

/-!
Shallow embedding of `src/InvoiceGenerator.py` (a Tkinter + ReportLab invoice
generator) and proofs of the specification's claims about it.

The Python program has two parts:
* `generate_invoice_pdf(data)` — opens a save-file picker, then renders a
  one-page PDF (header, two address blocks, a two-column table with a total
  row) and reports success or failure through a message box;
* `InvoiceApp.on_generate_button_click` — snapshots the form widgets into a
  flat `data` dict and calls `generate_invoice_pdf`.

The embedding models Python strings as Lean `String`, Python `str.split`
and `str.strip` by faithful recursive definitions, ReportLab coordinates as
rationals, and the effectful skeleton (picker result, the `try`/`except`
around rendering, message boxes, the file write) as explicit data:
`generate_invoice_pdf` takes the picker's returned path and the exception
(if any) raised inside the `try` block as parameters and returns the
observable effects (file written, notifications shown).
-/

namespace InvoiceGen

/-! ## Python string primitives -/

/-- Python whitespace characters handled by `str.strip()` (ASCII subset,
which covers everything the program can receive from Tk text widgets). -/
def isPyWhitespace (c : Char) : Bool :=
  c = ' ' || c = '\t' || c = '\n' || c = '\r' || c = '\x0b' || c = '\x0c'

/-- Python `str.strip()`: drop leading and trailing whitespace. -/
def pyStrip (s : String) : String :=
  ⟨((s.toList.dropWhile isPyWhitespace).reverse.dropWhile isPyWhitespace).reverse⟩

/-- Auxiliary for `pySplit`: scan the character list, cutting at `sep`. -/
def splitOnCharAux (sep : Char) : List Char → List Char → List (List Char)
  | [], acc => [acc.reverse]
  | c :: cs, acc =>
      if c = sep then acc.reverse :: splitOnCharAux sep cs []
      else splitOnCharAux sep cs (c :: acc)

/-- Python `s.split(sep)` for a one-character separator: always yields at
least one piece; `"".split(sep) = [""]`. -/
def pySplit (s : String) (sep : Char) : List String :=
  (splitOnCharAux sep s.toList []).map fun l => ⟨l⟩

/-! ## Data model

The `data` dict built by `on_generate_button_click` (the spec's
"Invoice Record"). -/

structure InvoiceData where
  invoice_title : String
  my_details : String
  client_details : String
  deliverables : String
  inference : String
  total_amount : String
  header_font : String
  body_font : String
deriving DecidableEq

/-- The live form-field state: for `Text` widgets this is the full text
returned by `.get("1.0", tk.END)` (Tk appends a trailing newline), for
`Entry`/`Combobox` widgets the plain string value. -/
structure FormState where
  invoice_title : String
  my_details_text : String
  client_details_text : String
  deliverables_text : String
  inference_text : String
  total_amount : String
  header_font_var : String
  body_font_var : String
deriving DecidableEq

/-- `InvoiceApp.on_generate_button_click`, lines 286–295: snapshot the form
fields into the `data` dict.  The four multi-line `Text` fields go through
Python `.strip()`; the four single-line fields are passed as-is. -/
def collectData (f : FormState) : InvoiceData :=
  { invoice_title := f.invoice_title
    my_details := pyStrip f.my_details_text
    client_details := pyStrip f.client_details_text
    deliverables := pyStrip f.deliverables_text
    inference := pyStrip f.inference_text
    total_amount := f.total_amount
    header_font := f.header_font_var
    body_font := f.body_font_var }

/-- Reference definition following the spec's words for C5 ("every field's
text is passed through untouched"): the snapshot with no transformation at
all.  Compared against `collectData`, which is translated from the code. -/
def collectDataSpec (f : FormState) : InvoiceData :=
  { invoice_title := f.invoice_title
    my_details := f.my_details_text
    client_details := f.client_details_text
    deliverables := f.deliverables_text
    inference := f.inference_text
    total_amount := f.total_amount
    header_font := f.header_font_var
    body_font := f.body_font_var }

/-! ## Font resolution (lines 54–61) -/

/-- Line 55: `available_fonts = ["Helvetica", "Times-Roman", "Courier"]`. -/
def available_fonts : List String := ["Helvetica", "Times-Roman", "Courier"]

/-- Line 60.  `registered` models the set of fonts for which
`pdfmetrics.hasFont` answers true (custom registrations). -/
def resolveHeaderFont (registered : List String) (d : InvoiceData) : String :=
  if d.header_font ∈ available_fonts ∨ d.header_font ∈ registered then
    d.header_font
  else "Helvetica"

/-- Line 61: same resolution for the body font, default `"Times-Roman"`. -/
def resolveBodyFont (registered : List String) (d : InvoiceData) : String :=
  if d.body_font ∈ available_fonts ∨ d.body_font ∈ registered then
    d.body_font
  else "Times-Roman"

/-! ## Table construction (lines 92–124) -/

/-- The paragraph style used for table cells: `styles['Normal']` with
`fontName`, `fontSize`, `leading` overwritten (lines 92–96). -/
structure ParaStyle where
  fontName : String
  fontSize : ℚ
  leading : ℚ
deriving DecidableEq

/-- Lines 93–96: `p_style` after the three assignments. -/
def p_style (body_font : String) : ParaStyle :=
  { fontName := body_font, fontSize := 10, leading := 12 }

/-- A ReportLab `Paragraph(text, style)`; `text` may carry `<b>` markup. -/
structure Paragraph where
  text : String
  style : ParaStyle
deriving DecidableEq

/-- A table cell: the header row holds plain strings, the other rows hold
`Paragraph` objects (the Python list is heterogeneous). -/
inductive Cell where
  | str (s : String)
  | par (p : Paragraph)
deriving DecidableEq

/-- Line 102: `deliverables_list = data['deliverables'].split('\n')`. -/
def deliverables_list (d : InvoiceData) : List String :=
  pySplit d.deliverables '\n'

/-- Line 103: `inference_list = data['inference'].split('\n')`. -/
def inference_list (d : InvoiceData) : List String :=
  pySplit d.inference '\n'

/-- Line 106: `max_len = max(len(deliverables_list), len(inference_list))`. -/
def max_len (d : InvoiceData) : Nat :=
  max (deliverables_list d).length (inference_list d).length

/-- Lines 110–111: `lst[i] if i < len(lst) else ''`.  The `lst[i]` access is
modelled fallibly (`l[i]?`, with `none` = Python `IndexError`); the guard
makes it total, which `rowCell_isSome` proves. -/
def rowCell (l : List String) (i : Nat) : Option String :=
  if i < l.length then l[i]? else some ""

/-- The string actually placed in the cell at row `i`. -/
def cellText (l : List String) (i : Nat) : String :=
  (rowCell l i).getD ""

/-- Line 113: one item row of the table. -/
def itemRow (bf : String) (d : InvoiceData) (i : Nat) : List Cell :=
  [Cell.par ⟨cellText (deliverables_list d) i, p_style bf⟩,
   Cell.par ⟨cellText (inference_list d) i, p_style bf⟩]

/-- Line 99: the header row `['Deliverables', 'Inference']`. -/
def headerRow : List Cell := [Cell.str "Deliverables", Cell.str "Inference"]

/-- Lines 116–119: the total row, both cells bold via `<b>` markup. -/
def totalRow (bf : String) (d : InvoiceData) : List Cell :=
  [Cell.par ⟨"<b>TOTAL PAYABLE:</b>", p_style bf⟩,
   Cell.par ⟨"<b>" ++ d.total_amount ++ "</b>", p_style bf⟩]

/-- Lines 99–119: the full `table_data` list — header row, `max_len` item
rows built by the `for i in range(max_len)` loop, then the total row. -/
def table_data (bf : String) (d : InvoiceData) : List (List Cell) :=
  headerRow :: ((List.range (max_len d)).map (itemRow bf d) ++ [totalRow bf d])

/-! ## Page geometry and draw operations -/

/-- ReportLab `inch` = 72 points. -/
def inch : ℚ := 72

/-- ReportLab `mm` = 72 / 25.4 points. -/
def mm : ℚ := 720 / 254

/-- A4 page width: 210 mm. -/
def A4width : ℚ := 210 * mm

/-- A4 page height: 297 mm. -/
def A4height : ℚ := 297 * mm

/-- Line 123: two equal column widths, `(width - 2*inch) / 2` each. -/
def col_widths : List ℚ :=
  [(A4width - 2 * inch) / 2, (A4width - 2 * inch) / 2]

/-- One argument of a `TableStyle` command (a string or a number). -/
inductive SVal where
  | s (v : String)
  | n (v : ℚ)
deriving DecidableEq

/-- One `TableStyle` command: name, start cell, stop cell, arguments. -/
structure StyleCmd where
  cmd : String
  start : Int × Int
  stop : Int × Int
  args : List SVal
deriving DecidableEq

/-- Lines 127–144: the `TableStyle` applied to the table. -/
def table_style (header_font body_font : String) : List StyleCmd :=
  [⟨"BACKGROUND", (0, 0), (-1, 0), [.s "#EEEEEE"]⟩,
   ⟨"TEXTCOLOR", (0, 0), (-1, 0), [.s "#000000"]⟩,
   ⟨"ALIGN", (0, 0), (-1, -1), [.s "LEFT"]⟩,
   ⟨"FONTNAME", (0, 0), (-1, 0), [.s (header_font ++ "-Bold")]⟩,
   ⟨"FONTSIZE", (0, 0), (-1, 0), [.n 10]⟩,
   ⟨"BOTTOMPADDING", (0, 0), (-1, 0), [.n 12]⟩,
   ⟨"BACKGROUND", (0, -1), (-1, -1), [.s "#DDDDDD"]⟩,
   ⟨"TEXTCOLOR", (0, -1), (-1, -1), [.s "#000000"]⟩,
   ⟨"FONTNAME", (0, -1), (-1, -1), [.s (body_font ++ "-Bold")]⟩,
   ⟨"FONTSIZE", (0, -1), (-1, -1), [.n 10]⟩,
   ⟨"GRID", (0, 0), (-1, -1), [.n 1, .s "#CCCCCC"]⟩,
   ⟨"VALIGN", (0, 0), (-1, -1), [.s "TOP"]⟩,
   ⟨"LEFTPADDING", (0, 0), (-1, -1), [.n 5]⟩,
   ⟨"RIGHTPADDING", (0, 0), (-1, -1), [.n 5]⟩,
   ⟨"TOPPADDING", (0, 0), (-1, -1), [.n 5]⟩,
   ⟨"BOTTOMPADDING", (0, 0), (-1, -1), [.n 5]⟩]

/-- The canvas operations the renderer performs, in order.  `drawText`
stands for a `beginText`/`setTextOrigin`/`textLine*`/`drawText` block. -/
inductive DrawOp where
  | setFont (name : String) (size : ℚ)
  | drawCentredString (x y : ℚ) (text : String)
  | drawText (x y : ℚ) (lines : List String)
  | drawTable (x y : ℚ) (data : List (List Cell)) (colWidths : List ℚ)
      (style : List StyleCmd)
deriving DecidableEq

/-- Line 152: the y coordinate passed to `table.drawOn`
(`height - 300 - table_height`; ReportLab's origin is the bottom-left, so
this is the table's bottom edge). -/
def tableDrawY (table_height : ℚ) : ℚ :=
  A4height - 300 - table_height

/-- Lines 34–152: the rendered document as the ordered list of canvas
operations.  `measure` models `table.wrapOn`'s height result — a pure
function of the table data and column widths (ReportLab text metrics),
supplied as a parameter because font metrics live outside the program. -/
def renderDocument (measure : List (List Cell) → List ℚ → ℚ)
    (registered : List String) (d : InvoiceData) : List DrawOp :=
  let header_font := resolveHeaderFont registered d
  let body_font := resolveBodyFont registered d
  let tdata := table_data body_font d
  let table_height := measure tdata col_widths
  [.setFont (header_font ++ "-Bold") 36,
   .drawCentredString (A4width / 2) (A4height - 70) d.invoice_title.toUpper,
   .setFont body_font 10,
   .drawText inch (A4height - 150) (pySplit d.my_details '\n'),
   .setFont body_font 10,
   .drawText (A4width - (7 * inch / 2)) (A4height - 150)
     (pySplit d.client_details '\n'),
   .drawTable inch (tableDrawY table_height) tdata col_widths
     (table_style header_font body_font)]

/-- A message box shown to the user. -/
inductive Notification where
  | info (title msg : String)
  | error (title msg : String)
deriving DecidableEq

/-- The observable outcome of one call to `generate_invoice_pdf`. -/
structure RunResult where
  fileWritten : Option (String × List DrawOp)
  notifications : List Notification
deriving DecidableEq

/-- The success message box of line 155. -/
def successMsg : String := "Invoice PDF generated successfully!"

/-- The error message box of line 158 (`f"An error occurred during PDF
generation: \x7be\x7d"`). -/
def errorMsg (e : String) : String :=
  "An error occurred during PDF generation: " ++ e

/-- Lines 27–158: `generate_invoice_pdf`.  `file_path` is what
`filedialog.asksaveasfilename` returned (the empty string when the user
cancels; line 30 tests `if not file_path`).  `exn` is the exception, if
any, raised inside the `try` block of lines 33–155; `none` means the
rendering and `c.save()` completed, writing the document to `file_path`. -/
def generate_invoice_pdf (measure : List (List Cell) → List ℚ → ℚ)
    (registered : List String) (exn : Option String)
    (file_path : String) (d : InvoiceData) : RunResult :=
  if file_path = "" then
    { fileWritten := none, notifications := [] }
  else
    match exn with
    | some e =>
        { fileWritten := none
          notifications := [.error "Error" (errorMsg e)] }
    | none =>
        { fileWritten := some (file_path, renderDocument measure registered d)
          notifications := [.info "Success" successMsg] }

/-- Substring containment, used to state "the notification text contains
the exception's message". -/
def containsStr (s sub : String) : Prop :=
  ∃ a b, s = a ++ sub ++ b

/-- A string with no leading and no trailing Python whitespace — exactly
the strings `pyStrip` leaves unchanged. -/
def noEdgeWhitespace (s : String) : Bool :=
  (s.toList.head?.all fun c => !isPyWhitespace c) &&
  (s.toList.getLast?.all fun c => !isPyWhitespace c)

/-! ## Concrete sample inputs used by witnesses and counterexamples -/

/-- A concrete Invoice Record: deliverables split to `["A", "B"]`,
inference to `["X"]`. -/
def sampleData : InvoiceData :=
  { invoice_title := "SALES INVOICE"
    my_details := "Your Name\nYour Company Name"
    client_details := "Client Name\nClient Company"
    deliverables := "A\nB"
    inference := "X"
    total_amount := "100"
    header_font := "Helvetica"
    body_font := "Times-Roman" }

/-- A concrete form state whose multi-line fields have no leading or
trailing whitespace. -/
def sampleForm : FormState :=
  { invoice_title := "SALES INVOICE"
    my_details_text := "Your Name\nYour Company Name"
    client_details_text := "Client Name\nClient Company"
    deliverables_text := "A\nB"
    inference_text := "X"
    total_amount := "100"
    header_font_var := "Helvetica"
    body_font_var := "Times-Roman" }

/-- A concrete form state exhibiting the collector's `.strip()`:
the sender-details Text widget holds `" A \n"` (Tk always appends the
trailing newline; the leading and trailing blanks were typed). -/
def strippedForm : FormState :=
  { invoice_title := "SALES INVOICE"
    my_details_text := " A \n"
    client_details_text := "Client Name"
    deliverables_text := "A\nB"
    inference_text := "X"
    total_amount := "100"
    header_font_var := "Helvetica"
    body_font_var := "Times-Roman" }

/-- A concrete record whose requested fonts are neither standard nor
registered. -/
def badFontData : InvoiceData :=
  { sampleData with header_font := "Comic Sans MS", body_font := "Wingdings" }

/-- A concrete table-measure function (any measure works for the claims
that need one instantiated). -/
def zeroMeasure : List (List Cell) → List ℚ → ℚ := fun _ _ => 0

/-! ## Helper lemmas -/

/-- `splitOnCharAux` always emits at least one piece. -/
theorem splitOnCharAux_length_pos (sep : Char) (l acc : List Char) :
    1 ≤ (splitOnCharAux sep l acc).length := by
  induction l generalizing acc with
  | nil => simp [splitOnCharAux]
  | cons c cs ih =>
      unfold splitOnCharAux
      by_cases h : c = sep
      · rw [if_pos h]
        simp
      · rw [if_neg h]
        exact ih (c :: acc)

/-- Python `split` always yields at least one element, even on `""`. -/
theorem pySplit_length_pos (s : String) (sep : Char) :
    1 ≤ (pySplit s sep).length := by
  unfold pySplit
  rw [List.length_map]
  exact splitOnCharAux_length_pos sep s.toList []

/-- The guarded cell lookup of lines 110–111 never raises `IndexError`. -/
theorem rowCell_isSome (l : List String) (i : Nat) :
    (rowCell l i).isSome = true := by
  unfold rowCell
  split
  · next h => rw [List.getElem?_eq_getElem h]; rfl
  · rfl

/-- Beyond the end of the shorter list the cell text is the empty string. -/
theorem cellText_of_le (l : List String) (i : Nat) (h : l.length ≤ i) :
    cellText l i = "" := by
  unfold cellText rowCell
  rw [if_neg (by omega)]
  rfl

/-- Within bounds the cell text is the list element itself. -/
theorem cellText_of_lt (l : List String) (i : Nat) (h : i < l.length) :
    cellText l i = l[i] := by
  unfold cellText rowCell
  rw [if_pos h, List.getElem?_eq_getElem h]
  rfl

/-- The built table has one header row, `max_len` item rows and one total
row. -/
theorem table_data_length (bf : String) (d : InvoiceData) :
    (table_data bf d).length = max_len d + 2 := by
  simp [table_data]

/-- Row `i + 1` of the table (for `i < max_len`) is the `i`-th item row. -/
theorem table_data_item (bf : String) (d : InvoiceData) (i : Nat)
    (h : i < max_len d) :
    (table_data bf d)[i + 1]? = some (itemRow bf d i) := by
  unfold table_data
  rw [List.getElem?_cons_succ,
    List.getElem?_append_left (by rw [List.length_map, List.length_range]; exact h),
    List.getElem?_map, List.getElem?_range h]
  rfl

/-- The last row of the table is the total row. -/
theorem table_data_getLast (bf : String) (d : InvoiceData) :
    (table_data bf d).getLast? = some (totalRow bf d) := by
  unfold table_data
  rw [← List.cons_append, List.getLast?_concat]

/-- `dropWhile` is the identity when the head already fails the predicate. -/
theorem dropWhile_eq_self_of_head (p : Char → Bool) (l : List Char)
    (h : ∀ c, l.head? = some c → p c = false) : l.dropWhile p = l := by
  cases l with
  | nil => rfl
  | cons c cs => simp [List.dropWhile, h c rfl]

/-- `pyStrip` leaves a string without marginal whitespace unchanged. -/
theorem pyStrip_eq_self (s : String) (h : noEdgeWhitespace s = true) :
    pyStrip s = s := by
  unfold noEdgeWhitespace at h
  rw [Bool.and_eq_true] at h
  obtain ⟨h1, h2⟩ := h
  unfold pyStrip
  have e1 : s.toList.dropWhile isPyWhitespace = s.toList := by
    apply dropWhile_eq_self_of_head
    intro c hc
    rw [hc] at h1
    simpa using h1
  rw [e1]
  have e2 : s.toList.reverse.dropWhile isPyWhitespace = s.toList.reverse := by
    apply dropWhile_eq_self_of_head
    intro c hc
    rw [List.head?_reverse] at hc
    rw [hc] at h2
    simpa using h2
  rw [e2, List.reverse_reverse]
  cases s
  rfl

/-! ## Claim theorems -/

/-- C1: for deliverables/inference line lists of lengths `m ≠ n`, the table
built by `generate_invoice_pdf` has `max(m, n)` item rows plus one header
row plus one total row; row `i + 1` is the `i`-th item row, every cell
index beyond the shorter list renders as `""`, and the guarded cell lookup
never raises an index error. -/
theorem claim1_table_shape (registered : List String) (d : InvoiceData)
    (_hmn : (deliverables_list d).length ≠ (inference_list d).length) :
    (table_data (resolveBodyFont registered d) d).length
        = max (deliverables_list d).length (inference_list d).length + 2
    ∧ (∀ i, i < max_len d →
        (table_data (resolveBodyFont registered d) d)[i + 1]?
          = some (itemRow (resolveBodyFont registered d) d i))
    ∧ (∀ i, (deliverables_list d).length ≤ i →
        cellText (deliverables_list d) i = "")
    ∧ (∀ i, (inference_list d).length ≤ i →
        cellText (inference_list d) i = "")
    ∧ (∀ i, i < max_len d →
        (rowCell (deliverables_list d) i).isSome = true
        ∧ (rowCell (inference_list d) i).isSome = true) := by
  refine ⟨table_data_length _ d, table_data_item _ d, ?_, ?_, ?_⟩
  · exact fun i hi => cellText_of_le _ i hi
  · exact fun i hi => cellText_of_le _ i hi
  · exact fun i _ => ⟨rowCell_isSome _ i, rowCell_isSome _ i⟩

/-- Witness for C1 at `sampleData` (lists of lengths 2 and 1). -/
theorem claim1_witness :
    (deliverables_list sampleData).length ≠ (inference_list sampleData).length
    ∧ (table_data (resolveBodyFont [] sampleData) sampleData).length
        = max (deliverables_list sampleData).length
            (inference_list sampleData).length + 2 :=
  ⟨by decide, (claim1_table_shape [] sampleData (by decide)).1⟩

/-- C2: a requested font that is neither one of the standard fonts nor
registered resolves to the fixed default — `"Helvetica"` for the header
font, `"Times-Roman"` for the body font — which differs from the request;
the two defaults are distinct and the substitution is a total function
(no error path). -/
theorem claim2_font_fallback (registered : List String) (d : InvoiceData)
    (hh : d.header_font ∉ available_fonts ∧ d.header_font ∉ registered)
    (hb : d.body_font ∉ available_fonts ∧ d.body_font ∉ registered) :
    resolveHeaderFont registered d = "Helvetica"
    ∧ resolveHeaderFont registered d ≠ d.header_font
    ∧ resolveBodyFont registered d = "Times-Roman"
    ∧ resolveBodyFont registered d ≠ d.body_font
    ∧ resolveHeaderFont registered d ≠ resolveBodyFont registered d := by
  have eh : resolveHeaderFont registered d = "Helvetica" := by
    unfold resolveHeaderFont
    rw [if_neg]
    rintro (h | h)
    exacts [hh.1 h, hh.2 h]
  have eb : resolveBodyFont registered d = "Times-Roman" := by
    unfold resolveBodyFont
    rw [if_neg]
    rintro (h | h)
    exacts [hb.1 h, hb.2 h]
  refine ⟨eh, ?_, eb, ?_, ?_⟩
  · rw [eh]
    intro h
    apply hh.1
    rw [← h]
    decide
  · rw [eb]
    intro h
    apply hb.1
    rw [← h]
    decide
  · rw [eh, eb]
    decide

/-- Witness for C2 at `badFontData` (requests `"Comic Sans MS"` and
`"Wingdings"`, no registered fonts). -/
theorem claim2_witness :
    (badFontData.header_font ∉ available_fonts
      ∧ badFontData.header_font ∉ ([] : List String))
    ∧ (badFontData.body_font ∉ available_fonts
      ∧ badFontData.body_font ∉ ([] : List String))
    ∧ resolveHeaderFont [] badFontData = "Helvetica"
    ∧ resolveBodyFont [] badFontData = "Times-Roman" :=
  ⟨⟨by decide, by decide⟩, ⟨by decide, by decide⟩,
   (claim2_font_fallback [] badFontData ⟨by decide, by decide⟩
      ⟨by decide, by decide⟩).1,
   (claim2_font_fallback [] badFontData ⟨by decide, by decide⟩
      ⟨by decide, by decide⟩).2.2.1⟩

/-- C3: when the save-file picker is cancelled (it returns the empty
string, line 30), `generate_invoice_pdf` returns immediately: no file is
written and no notification of any kind is shown, whatever the record,
the registered fonts or the possible rendering exception. -/
theorem claim3_cancel_noop (measure : List (List Cell) → List ℚ → ℚ)
    (registered : List String) (exn : Option String) (d : InvoiceData) :
    generate_invoice_pdf measure registered exn "" d
      = { fileWritten := none, notifications := [] } := by
  unfold generate_invoice_pdf
  rw [if_pos rfl]

/-- C4: past the picker, exactly one of two outcomes: with no exception the
document is written to the chosen path and a single success box is shown;
with an exception `e` a single generic error box is shown whose text
contains `e`.  The two branches are mutually exclusive (`exn` cannot be
both `none` and `some e`) and there is only one error shape. -/
theorem claim4_outcomes (measure : List (List Cell) → List ℚ → ℚ)
    (registered : List String) (exn : Option String)
    (file_path : String) (d : InvoiceData) (hpath : file_path ≠ "") :
    (exn = none ∧
      generate_invoice_pdf measure registered exn file_path d
        = { fileWritten := some (file_path, renderDocument measure registered d)
            notifications := [.info "Success" successMsg] })
    ∨ (∃ e, exn = some e ∧
        generate_invoice_pdf measure registered exn file_path d
          = { fileWritten := none
              notifications := [.error "Error" (errorMsg e)] }
        ∧ containsStr (errorMsg e) e) := by
  unfold generate_invoice_pdf
  rw [if_neg hpath]
  cases exn with
  | none => exact Or.inl ⟨rfl, rfl⟩
  | some e =>
      refine Or.inr ⟨e, rfl, rfl,
        "An error occurred during PDF generation: ", "", ?_⟩
      rw [String.append_empty]
      rfl

/-- Witness for C4 at the path `"invoice.pdf"` with a failing run
(`exn = some "disk full"`). -/
theorem claim4_witness :
    ("invoice.pdf" : String) ≠ ""
    ∧ (((some "disk full" : Option String) = none ∧
        generate_invoice_pdf zeroMeasure [] (some "disk full")
            "invoice.pdf" sampleData
          = { fileWritten :=
                some ("invoice.pdf", renderDocument zeroMeasure [] sampleData)
              notifications := [.info "Success" successMsg] })
      ∨ (∃ e, (some "disk full" : Option String) = some e ∧
          generate_invoice_pdf zeroMeasure [] (some "disk full")
              "invoice.pdf" sampleData
            = { fileWritten := none
                notifications := [.error "Error" (errorMsg e)] }
          ∧ containsStr (errorMsg e) e)) :=
  ⟨by decide,
   claim4_outcomes zeroMeasure [] (some "disk full") "invoice.pdf" sampleData
     (by decide)⟩

/-- C5 counterexample: the collector does NOT pass every field's text
through untouched — the four multi-line `Text` fields go through Python
`.strip()` (line 288: `.get("1.0", tk.END).strip()`).  On a sender-details
widget holding `" A \n"` the snapshot records `"A"`, not the widget text. -/
theorem claim5_counterexample :
    collectData strippedForm ≠ collectDataSpec strippedForm
    ∧ (collectData strippedForm).my_details = "A"
    ∧ (collectDataSpec strippedForm).my_details = " A \n" := by
  refine ⟨?_, by decide, by decide⟩
  intro h
  have := congrArg InvoiceData.my_details h
  revert this
  decide

/-- C5 amended: the collector performs no validation; the single-line
fields (title, total, both fonts) are passed through untouched, each
multi-line `Text` field is stripped of leading and trailing whitespace
(removing the trailing newline Tk appends) and nothing else; whenever a
multi-line field has no marginal whitespace the whole snapshot equals the
untouched pass-through, and splitting into lines is left to the
renderer. -/
theorem claim5_collector_strips (f : FormState) :
    (collectData f).invoice_title = f.invoice_title
    ∧ (collectData f).total_amount = f.total_amount
    ∧ (collectData f).header_font = f.header_font_var
    ∧ (collectData f).body_font = f.body_font_var
    ∧ (collectData f).my_details = pyStrip f.my_details_text
    ∧ (collectData f).client_details = pyStrip f.client_details_text
    ∧ (collectData f).deliverables = pyStrip f.deliverables_text
    ∧ (collectData f).inference = pyStrip f.inference_text
    ∧ (noEdgeWhitespace f.my_details_text = true →
       noEdgeWhitespace f.client_details_text = true →
       noEdgeWhitespace f.deliverables_text = true →
       noEdgeWhitespace f.inference_text = true →
       collectData f = collectDataSpec f) := by
  refine ⟨rfl, rfl, rfl, rfl, rfl, rfl, rfl, rfl, ?_⟩
  intro h1 h2 h3 h4
  unfold collectData collectDataSpec
  rw [pyStrip_eq_self _ h1, pyStrip_eq_self _ h2, pyStrip_eq_self _ h3,
    pyStrip_eq_self _ h4]

/-- Witness for C5 (amended) at `sampleForm`, whose multi-line fields have
no marginal whitespace, so the snapshot is the untouched pass-through. -/
theorem claim5_witness :
    noEdgeWhitespace sampleForm.my_details_text = true
    ∧ noEdgeWhitespace sampleForm.client_details_text = true
    ∧ noEdgeWhitespace sampleForm.deliverables_text = true
    ∧ noEdgeWhitespace sampleForm.inference_text = true
    ∧ collectData sampleForm = collectDataSpec sampleForm :=
  ⟨by decide, by decide, by decide, by decide,
   (claim5_collector_strips sampleForm).2.2.2.2.2.2.2.2
     (by decide) (by decide) (by decide) (by decide)⟩

/-- C6: on the record whose deliverables split to `["A", "B"]`, inference
to `["X"]` and total `"100"`, the built table is exactly the header row
`["Deliverables", "Inference"]`, the item rows `["A", "X"]` and
`["B", ""]`, and the bold total row whose value cell contains `"100"`. -/
theorem claim6_concrete_table :
    deliverables_list sampleData = ["A", "B"]
    ∧ inference_list sampleData = ["X"]
    ∧ table_data (resolveBodyFont [] sampleData) sampleData
        = [[Cell.str "Deliverables", Cell.str "Inference"],
           [Cell.par ⟨"A", p_style "Times-Roman"⟩,
            Cell.par ⟨"X", p_style "Times-Roman"⟩],
           [Cell.par ⟨"B", p_style "Times-Roman"⟩,
            Cell.par ⟨"", p_style "Times-Roman"⟩],
           [Cell.par ⟨"<b>TOTAL PAYABLE:</b>", p_style "Times-Roman"⟩,
            Cell.par ⟨"<b>100</b>", p_style "Times-Roman"⟩]]
    ∧ containsStr "<b>100</b>" "100" :=
  ⟨by decide, by decide, by decide, "<b>", "</b>", rfl⟩

/-- C7: the table is drawn at `x` = 1 inch and `y` = (fixed constant
`height - 300`) minus the measured table height, so its top edge
(`y` + height) sits at the constant `A4height - 300` — page height minus a
fixed 300-point distance from the top — independent of the measured table
height and of every record field. -/
theorem claim7_table_position (measure : List (List Cell) → List ℚ → ℚ)
    (registered : List String) (d : InvoiceData) :
    ∃ h : ℚ,
      h = measure (table_data (resolveBodyFont registered d) d) col_widths
      ∧ (renderDocument measure registered d).getLast?
          = some (DrawOp.drawTable inch (tableDrawY h)
              (table_data (resolveBodyFont registered d) d) col_widths
              (table_style (resolveHeaderFont registered d)
                (resolveBodyFont registered d)))
      ∧ tableDrawY h + h = A4height - 300 := by
  refine ⟨measure (table_data (resolveBodyFont registered d) d) col_widths,
    rfl, rfl, ?_⟩
  unfold tableDrawY
  ring

/-- C8: rendering is deterministic in the record and independent of the
destination path — two successful runs on the same record with different
paths write the very same document. -/
theorem claim8_render_deterministic (measure : List (List Cell) → List ℚ → ℚ)
    (registered : List String) (d : InvoiceData) (p1 p2 : String)
    (h1 : p1 ≠ "") (h2 : p2 ≠ "") :
    ∃ doc,
      (generate_invoice_pdf measure registered none p1 d).fileWritten
        = some (p1, doc)
      ∧ (generate_invoice_pdf measure registered none p2 d).fileWritten
        = some (p2, doc) := by
  refine ⟨renderDocument measure registered d, ?_, ?_⟩
  · unfold generate_invoice_pdf
    rw [if_neg h1]
  · unfold generate_invoice_pdf
    rw [if_neg h2]

/-- Witness for C8 at the two paths `"a.pdf"` and `"b.pdf"`. -/
theorem claim8_witness :
    ("a.pdf" : String) ≠ ""
    ∧ ("b.pdf" : String) ≠ ""
    ∧ ∃ doc,
        (generate_invoice_pdf zeroMeasure [] none "a.pdf" sampleData).fileWritten
          = some ("a.pdf", doc)
        ∧ (generate_invoice_pdf zeroMeasure [] none "b.pdf" sampleData).fileWritten
          = some ("b.pdf", doc) :=
  ⟨by decide, by decide,
   claim8_render_deterministic zeroMeasure [] sampleData "a.pdf" "b.pdf"
     (by decide) (by decide)⟩

/-- C9: Python `split` never yields an empty list (even `""` splits to
`[""]`), so both line lists have at least one element and the table always
has `max_len + 2 ≥ 3` rows — there is no zero-item-row table. -/
theorem claim9_table_never_empty (registered : List String) (d : InvoiceData) :
    1 ≤ (deliverables_list d).length
    ∧ 1 ≤ (inference_list d).length
    ∧ (table_data (resolveBodyFont registered d) d).length = max_len d + 2
    ∧ 3 ≤ (table_data (resolveBodyFont registered d) d).length := by
  have hd : 1 ≤ (deliverables_list d).length :=
    pySplit_length_pos d.deliverables '\n'
  have hi : 1 ≤ (inference_list d).length :=
    pySplit_length_pos d.inference '\n'
  have hlen := table_data_length (resolveBodyFont registered d) d
  refine ⟨hd, hi, hlen, ?_⟩
  rw [hlen]
  unfold max_len
  omega

/-- C10: the last table row is always the total row; its label cell text is
the fixed literal `"<b>TOTAL PAYABLE:</b>"` for every record, and its value
cell text is `"<b>" + total_amount + "</b>"`, which agrees across any two
records with the same `total_amount`. -/
theorem claim10_total_row (registered : List String) (d d' : InvoiceData)
    (htot : d.total_amount = d'.total_amount) :
    (table_data (resolveBodyFont registered d) d).getLast?
        = some (totalRow (resolveBodyFont registered d) d)
    ∧ (totalRow (resolveBodyFont registered d) d)[0]?
        = some (Cell.par ⟨"<b>TOTAL PAYABLE:</b>",
            p_style (resolveBodyFont registered d)⟩)
    ∧ (totalRow (resolveBodyFont registered d) d)[1]?
        = some (Cell.par ⟨"<b>" ++ d.total_amount ++ "</b>",
            p_style (resolveBodyFont registered d)⟩)
    ∧ ("<b>" ++ d.total_amount ++ "</b>" : String)
        = "<b>" ++ d'.total_amount ++ "</b>" := by
  refine ⟨table_data_getLast _ d, rfl, rfl, ?_⟩
  rw [htot]

/-- Witness for C10: two records sharing `total_amount = "100"`. -/
theorem claim10_witness :
    sampleData.total_amount
        = (InvoiceData.total_amount { sampleData with invoice_title := "OTHER" })
    ∧ (table_data (resolveBodyFont [] sampleData) sampleData).getLast?
        = some (totalRow (resolveBodyFont [] sampleData) sampleData) :=
  ⟨by decide,
   (claim10_total_row [] sampleData { sampleData with invoice_title := "OTHER" }
      (by decide)).1⟩

end InvoiceGen
